import Mathlib

/-!
# A web notepad request handler

A shallow embedding of `src/index.js`: the `fetch` handler of the worker, the
identifier generator `generateId`, `escapeHtml` and `renderHTML`.

Modelling conventions.

* JavaScript strings are Lean `String`s. Every string the handler sees (a URL
  path, a decoded request body, a header value) is a sequence of Unicode scalar
  values; `.length` counts UTF-16 code units and is `jsLength`.
* A request is the record of what the handler reads from it: `request.method`,
  the parsed `new URL(request.url)` (`origin`, `pathname`, `searchParams`),
  `request.headers`, the value of `await request.text()` and the value of
  `(await request.formData()).get('text')`.
* The key-value binding `env.NOTES` is a finite map seen as a function from keys
  to optional values; `get` answers `null` (`none`) on a miss. The handler is
  asynchronous only to wait for the store, so it is a function from the request
  and the store before to the response and the store after.
* `Math.random()` is an IEEE-754 double in `[0, 1)`, kept as a significand
  and a binary shift; the handler receives the sequence of values its successive
  calls return. The product with `chars.length` is the exact product rounded to
  the nearest double, ties to even, as the `*` of two Numbers is.
* A response is its status, the headers the code passes to the constructor,
  and its body.
-/

namespace Notepad

/-! ## Strings -/

/-- Number of UTF-16 code units of a character. -/
def utf16Size (c : Char) : Nat :=
  if c.toNat < 65536 then 1 else 2

/-- JavaScript `s.length`: the number of UTF-16 code units of `s`. -/
def jsLength (s : String) : Nat :=
  (s.data.map utf16Size).sum

/-- JavaScript `s.startsWith(p)`. -/
def startsWith (s p : String) : Bool :=
  p.data.isPrefixOf s.data

/-- Whether `needle` occurs in `hay` as a contiguous run. -/
def includesChars (needle : List Char) : List Char → Bool
  | [] => needle.isPrefixOf []
  | c :: cs => needle.isPrefixOf (c :: cs) || includesChars needle cs

/-- JavaScript `s.includes(needle)`. -/
def includes (s needle : String) : Bool :=
  includesChars needle.data s.data

/-- JavaScript `s.charAt(i)`: the one-character string at index `i`, or the
empty string when `i` is out of range. Used on ASCII strings only. -/
def charAt (s : String) (i : Int) : String :=
  if i < 0 then ""
  else
    match s.data.get? i.toNat with
    | some c => String.singleton c
    | none => ""

/-- The pieces of a character list between occurrences of `sep`
(`split` with a one-character separator). -/
def splitChars (sep : Char) : List Char → List (List Char)
  | [] => [[]]
  | c :: cs =>
    if c = sep then [] :: splitChars sep cs
    else
      match splitChars sep cs with
      | [] => [[c]]
      | p :: ps => (c :: p) :: ps

/-- JavaScript `s.split(sep)` for a one-character separator. -/
def split (s : String) (sep : Char) : List String :=
  (splitChars sep s.data).map String.mk

/-- The expression `url.pathname.split('/').filter(p => p)`: the non-empty
segments of the path. -/
def pathParts (pathname : String) : List String :=
  (split pathname '/').filter (fun p => p.data ≠ [])

/-! ## Requests, responses and the store -/

/-- The parts of `new URL(request.url)` the handler reads. -/
structure URL where
  origin : String
  pathname : String
  searchParams : List (String × String)

/-- Call `url.searchParams.has(name)`. -/
def URL.hasParam (url : URL) (name : String) : Bool :=
  url.searchParams.any (fun p => p.1 == name)

/-- What the handler reads from a request. Header names are stored in lower
case, as a `Headers` object keeps them. -/
structure Request where
  method : String
  url : URL
  headers : List (String × String)
  /-- Value of `await request.text()`. -/
  text : String
  /-- Value of `(await request.formData()).get('text')`, `none` for `null`. -/
  formText : Option String

/-- Call `request.headers.get(name)`, `none` for `null`. -/
def Request.header (request : Request) (name : String) : Option String :=
  request.headers.lookup name

/-- A response: status, the headers given to the constructor, body. -/
structure Response where
  status : Nat
  headers : List (String × String)
  body : String
deriving DecidableEq

/-- Value of the response header `name`, if the code set it. -/
def Response.header (r : Response) (name : String) : Option String :=
  r.headers.lookup name

/-- Call `new Response(body, { status, headers })`. -/
def Response.new (body : String) (status : Nat) (headers : List (String × String)) : Response :=
  { status := status, headers := headers, body := body }

/-- Call `Response.redirect(url, status)`: an empty body and a `Location`. -/
def Response.redirect (url : String) (status : Nat) : Response :=
  { status := status, headers := [("Location", url)], body := "" }

/-- The key-value store `env.NOTES`. -/
abbrev KV := String → Option String

/-- The store with no entry. -/
def KV.empty : KV := fun _ => none

/-- Call `NOTES.get(key)`. -/
def KV.get (kv : KV) (key : String) : Option String := kv key

/-- Call `NOTES.put(key, value)`. -/
def KV.put (kv : KV) (key value : String) : KV :=
  fun k => if k = key then some value else kv k

/-- Call `NOTES.delete(key)`. -/
def KV.delete (kv : KV) (key : String) : KV :=
  fun k => if k = key then none else kv k

/-! ## The identifier generator -/

/-- A value of `Math.random()`: a double `r` with `0 ≤ r < 1`, written
`r = sig / 2 ^ shift`. Every such double has this form (a normal one with
`53 ≤ shift ≤ 1074`, a subnormal one with `shift = 1074`), and every such pair
is a double. -/
structure Unit01 where
  sig : Nat
  shift : Nat
  sig_lt : sig < 2 ^ 53
  shift_le : shift ≤ 1074
  lt_one : sig < 2 ^ shift

/-- Number of binary digits of `n`, by repeated halving; `fuel` bounds the
number of halvings. -/
def bitLengthAux : Nat → Nat → Nat
  | 0, _ => 0
  | fuel + 1, n => if n = 0 then 0 else bitLengthAux fuel (n / 2) + 1

/-- Number of binary digits of `n`. -/
def bitLength (n : Nat) : Nat :=
  bitLengthAux n n

/-- Rounding of a whole number to the 53 significant bits of a double, to
nearest, ties to even: the digits beyond the first 53 are dropped, and the kept
part goes up by one when what is dropped is more than half a unit, or exactly
half a unit with an odd kept part. -/
def roundSig53 (n : Nat) : Nat :=
  let b := bitLength n - 53
  let q := n / 2 ^ b
  let rem := n % 2 ^ b
  if 2 ^ b < 2 * rem ∨ (2 * rem = 2 ^ b ∧ q % 2 = 1) then (q + 1) * 2 ^ b else q * 2 ^ b

/-- The double `Math.floor(r * m)` for a draw `r` and a whole number `m` below
`2 ^ 53`: the exact product `r.sig * m / 2 ^ r.shift` has its significand rounded
to the nearest double (no overflow, and no underflow since `r.shift ≤ 1074`),
then the floor is taken. -/
def floorMul (r : Unit01) (m : Nat) : Int :=
  ((roundSig53 (r.sig * m) / 2 ^ r.shift : Nat) : Int)

/-- The constant `chars` of `generateId`. -/
def chars : String := "234579abcdefghjkmnpqrstwxyz"

/-- One round of the loop of `generateId`:
`result += chars.charAt(Math.floor(Math.random() * chars.length))`. -/
def generateIdStep (random : Nat → Unit01) (result : String) (i : Nat) : String :=
  result ++ charAt chars (floorMul (random i) (jsLength chars))

/-- The function `generateId`; `random i` is the value of the `i`-th call of
`Math.random()`. -/
def generateId (random : Nat → Unit01) : String :=
  (List.range 5).foldl (generateIdStep random) ""

/-! ## HTML -/

/-- Call `text.replace(/c/g, by)` for a one-character pattern `c`. -/
def replaceAll (c : Char) (repl : String) (text : String) : String :=
  String.mk (text.data.flatMap (fun x => if x = c then repl.data else [x]))

/-- The function `escapeHtml`: five global replacements, one after the other. -/
def escapeHtml (text : String) : String :=
  replaceAll '\'' "&#039;"
    (replaceAll '"' "&quot;"
      (replaceAll '>' "&gt;"
        (replaceAll '<' "&lt;"
          (replaceAll '&' "&amp;" text))))

/-- Template text of `renderHTML` before the escaped note identifier (index.js lines 111-117). -/
def htmlHead : String :=
  String.intercalate "\n" [
    "<!DOCTYPE html>",
    "<html lang=\"en\">",
    "<head>",
    "<meta charset=\"utf-8\">",
    "<meta name=\"viewport\" content=\"width=device-width, initial-scale=1.0\">",
    "<meta name=\"apple-mobile-web-app-capable\" content=\"yes\">",
    "<title>"]

/-- Template text of `renderHTML` between the escaped note identifier and the escaped content (index.js lines 117-198). -/
def htmlMiddle : String :=
  String.intercalate "\n" [
    "</title>",
    "<link rel=\"icon\" href=\"data:image/svg+xml,%3Csvg xmlns='http://www.w3.org/2000/svg' viewBox='0 0 100 100'%3E%3Ctext y='.9em' font-size='90'%3E📝%3C/text%3E%3C/svg%3E\">",
    "<style>",
    "/* Base styles */",
    "body \x7b",
    "  margin: 0;",
    "  background: #ebeef1;",
    "  color: #000;",
    "  font-family: \"Roboto Mono\", monospace;",
    "\x7d",
    ".container \x7b",
    "  position: absolute;",
    "  top: 20px;",
    "  right: 20px;",
    "  bottom: 50px;",
    "  left: 20px;",
    "\x7d",
    "#content \x7b",
    "  margin: 0;",
    "  padding: 20px;",
    "  overflow-y: auto;",
    "  resize: none;",
    "  width: 100%;",
    "  height: 100%;",
    "  box-sizing: border-box;",
    "  border: 1px solid #ddd;",
    "  outline: none;",
    "  font-family: \"Roboto Mono\", monospace;",
    "  font-size: 1em;",
    "  line-height: 1.7;",
    "\x7d",
    ".controls \x7b",
    "  position: fixed;",
    "  bottom: 10px;",
    "  left: 20px;",
    "\x7d",
    ".controls a, .controls button \x7b",
    "  margin-right: 10px;",
    "  padding: 4px 10px;",
    "  background: #ebeef1;",
    "  border: 1px solid #999;",
    "  border-radius: 3px;",
    "  text-decoration: none;",
    "  color: #000;",
    "  font-size: 0.8em;",
    "  cursor: pointer;",
    "  font-family: \"Roboto Mono\", monospace;",
    "\x7d",
    ".controls a:hover, .controls button:hover \x7b",
    "  background: #ddd;",
    "\x7d",
    "",
    "/* Dark theme */",
    "body.dark \x7b",
    "  background: #333b4d;",
    "  color: #fff;",
    "\x7d",
    "body.dark #content \x7b",
    "  background: #24262b;",
    "  border-color: #495265;",
    "  color: #fff;",
    "\x7d",
    "body.dark .controls a, body.dark .controls button \x7b",
    "  background: #383838;",
    "  color: #ccc;",
    "  border-color: #555;",
    "\x7d",
    "body.dark .controls a:hover, body.dark .controls button:hover \x7b",
    "  background: #555;",
    "\x7d",
    "body.dark ::selection \x7b",
    "  background: rgba(255,255,255,.25);",
    "  color: inherit;",
    "\x7d",
    "body.dark textarea::selection \x7b",
    "  background: rgba(255,255,255,.25);",
    "\x7d",
    "</style>",
    "</head>",
    "<body>",
    "<div class=\"container\">",
    "<textarea id=\"content\" placeholder=\"Start typing...\">"]

/-- Template text of `renderHTML` after the escaped content (index.js lines 198-295). -/
def htmlTail : String :=
  String.intercalate "\n" [
    "</textarea>",
    "</div>",
    "",
    "<div class=\"controls\">",
    "  <a href=\"#\" id=\"downloadLink\">Download TXT</a>",
    "  <a href=\"#\" id=\"copyLink\">Copy</a>",
    "  <a href=\"#\" id=\"deleteLink\">Delete</a>",
    "  <a href=\"#\" id=\"emailLink\">Send by E-mail</a>",
    "  <button id=\"toggleDarkBtn\" type=\"button\">Toggle Dark</button>",
    "  <button id=\"refreshBtn\" type=\"button\" onclick=\"location.reload(true)\">Refresh</button>",
    "</div>",
    "",
    "<script>",
    "/* Auto-save functionality */",
    "var textarea = document.getElementById('content');",
    "var content = textarea.value;",
    "",
    "function uploadContent() \x7b",
    "  if (content !== textarea.value) \x7b",
    "    var temp = textarea.value;",
    "    fetch(window.location.href, \x7b",
    "      method: 'POST',",
    "      headers: \x7b'Content-Type': 'application/x-www-form-urlencoded; charset=UTF-8'\x7d,",
    "      body: 'text=' + encodeURIComponent(temp)",
    "    \x7d).then(function() \x7b",
    "      content = temp;",
    "      setTimeout(uploadContent, 1000);",
    "    \x7d).catch(function() \x7b",
    "      setTimeout(uploadContent, 1000);",
    "    \x7d);",
    "  \x7d else \x7b",
    "    setTimeout(uploadContent, 1000);",
    "  \x7d",
    "\x7d",
    "",
    "/* Update download and email links */",
    "function updateLinks() \x7b",
    "  var text = textarea.value;",
    "  var fileName = window.location.pathname.split('/').pop() + '.txt';",
    "  ",
    "  // Download link",
    "  try \x7b",
    "    var blob = new Blob([text], \x7btype: 'text/plain'\x7d);",
    "    var url = URL.createObjectURL(blob);",
    "    document.getElementById('downloadLink').href = url;",
    "    document.getElementById('downloadLink').download = fileName;",
    "  \x7d catch (e) \x7b",
    "    // Fallback for older browsers",
    "    document.getElementById('downloadLink').href = 'mailto:?subject=' + encodeURIComponent(fileName) + '&body=' + encodeURIComponent(text);",
    "  \x7d",
    "  ",
    "  // Email link",
    "  document.getElementById('emailLink').href = 'mailto:?subject=' + encodeURIComponent(fileName) + '&body=' + encodeURIComponent(text);",
    "\x7d",
    "",
    "/* Copy button */",
    "document.getElementById('copyLink').onclick = function() \x7b",
    "  textarea.focus();",
    "  textarea.select();",
    "  try \x7b",
    "    if (document.execCommand('copy')) \x7b",
    "      this.textContent = 'Copied!';",
    "      setTimeout(function() \x7b document.getElementById('copyLink').textContent = 'Copy'; \x7d, 1500);",
    "      return false;",
    "    \x7d",
    "  \x7d catch (e) \x7b\x7d",
    "  // Fallback",
    "  location.href = 'mailto:?body=' + encodeURIComponent(textarea.value);",
    "  return false;",
    "\x7d;",
    "",
    "/* Delete button */",
    "document.getElementById('deleteLink').onclick = function() \x7b",
    "  if (!confirm('Delete this note permanently?')) return false;",
    "  fetch(window.location.href, \x7b",
    "    method: 'POST',",
    "    headers: \x7b'Content-Type': 'application/x-www-form-urlencoded; charset=UTF-8'\x7d,",
    "    body: 'text='",
    "  \x7d).then(function() \x7b",
    "    textarea.value = '';",
    "    location.reload();",
    "  \x7d);",
    "  return false;",
    "\x7d;",
    "",
    "/* Dark mode toggle */",
    "document.getElementById('toggleDarkBtn').onclick = function() \x7b",
    "  document.body.classList.toggle('dark');",
    "\x7d;",
    "",
    "/* Initialize */",
    "textarea.oninput = updateLinks;",
    "updateLinks();",
    "textarea.focus();",
    "uploadContent();",
    "</script>",
    "</body>",
    "</html>"]

/-- The function `renderHTML`. -/
def renderHTML (noteId content : String) : String :=
  htmlHead ++ escapeHtml noteId ++ htmlMiddle ++ escapeHtml content ++ htmlTail

/-! ## The handler -/

/-- The test `/^[a-zA-Z0-9_-]+$/.test(noteId)`, one character. -/
def idChar (c : Char) : Bool :=
  ('a' ≤ c && c ≤ 'z') || ('A' ≤ c && c ≤ 'Z') || ('0' ≤ c && c ≤ '9') || c == '_' || c == '-'

/-- The test `/^[a-zA-Z0-9_-]+$/.test(noteId)`: one or more characters, all
of the class. -/
def testIdPattern (noteId : String) : Bool :=
  !noteId.data.isEmpty && noteId.data.all idChar

/-- The POST branch's `text`: the form field `text` when the content type
names `application/x-www-form-urlencoded`, the raw body otherwise. -/
def postText (request : Request) : String :=
  let contentType := (request.header "content-type").getD ""
  if includes contentType "application/x-www-form-urlencoded" then
    request.formText.getD ""
  else
    request.text

/-- The GET branch's `isRaw`. -/
def isRaw (request : Request) : Bool :=
  let userAgent := (request.header "user-agent").getD ""
  request.url.hasParam "raw" || startsWith userAgent "curl" || startsWith userAgent "Wget"

/-- The handler `fetch(request, env, ctx)`: the response and `env.NOTES` after. -/
def fetch (request : Request) (NOTES : KV) (random : Nat → Unit01) : Response × KV :=
  let url := request.url
  match (pathParts url.pathname).head? with
  | none =>
    let newId := generateId random
    (Response.redirect (url.origin ++ "/" ++ newId) 302, NOTES)
  | some noteId =>
    if !testIdPattern noteId || decide (jsLength noteId > 64) then
      (Response.new "Invalid note ID" 400 [], NOTES)
    else
      let kvKey := "note:" ++ noteId
      if request.method = "POST" then
        let text := postText request
        let NOTES' := if jsLength text = 0 then NOTES.delete kvKey else NOTES.put kvKey text
        (Response.new "OK" 200 [("Cache-Control", "no-store")], NOTES')
      else
        let content := NOTES.get kvKey
        if isRaw request then
          match content with
          | none => (Response.new "Not Found" 404 [("Content-Type", "text/plain")], NOTES)
          | some content =>
            (Response.new content 200
              [("Content-Type", "text/plain"), ("Cache-Control", "no-store")], NOTES)
        else
          let html := renderHTML noteId (content.getD "")
          (Response.new html 200
            [("Content-Type", "text/html; charset=utf-8"), ("Cache-Control", "no-store")], NOTES)

/-! ## Specification-side definitions -/

/-- The entity the specification gives for one character. -/
def escapeChar (c : Char) : String :=
  if c = '&' then "&amp;"
  else if c = '<' then "&lt;"
  else if c = '>' then "&gt;"
  else if c = '"' then "&quot;"
  else if c = '\'' then "&#039;"
  else String.singleton c

/-- The character-by-character substitution of the specification: the
concatenation of `escapeChar c` over the characters `c` of the text in order. -/
def escapeHtmlSpec (text : String) : String :=
  String.mk (text.data.flatMap (fun c => (escapeChar c).data))

/-- A store in which no key holds the empty string. -/
def NoEmpty (kv : KV) : Prop :=
  ∀ k, kv k ≠ some ""

/-- The stores the handler can produce from the empty store. -/
inductive Reachable : KV → Prop
  | empty : Reachable KV.empty
  | step (kv : KV) (request : Request) (random : Nat → Unit01) :
      Reachable kv → Reachable (fetch request kv random).2

/-- The characters a generated identifier may not contain. -/
def ambiguous : List Char :=
  ['0', '1', '6', '8', 'o', 'i', 'l', 'u', 'v']

/-- Membership in the class `[2-9a-z]`. -/
def inClass29az (c : Char) : Bool :=
  ('2' ≤ c && c ≤ '9') || ('a' ≤ c && c ≤ 'z')

/-- The five replacements of `escapeHtml` on character lists. -/
def escapeChars (l : List Char) : List Char :=
  ((((l.flatMap (fun x => if x = '&' then "&amp;".data else [x])).flatMap
    (fun x => if x = '<' then "&lt;".data else [x])).flatMap
    (fun x => if x = '>' then "&gt;".data else [x])).flatMap
    (fun x => if x = '"' then "&quot;".data else [x])).flatMap
    (fun x => if x = '\'' then "&#039;".data else [x])

/-- The character of `chars` at index `i`. -/
def alphabetAt (i : Fin 27) : Char :=
  chars.data.getD i.val 'z'

/-- The identifier spelled by five indices into `chars`. -/
def idOf (f : Fin 5 → Fin 27) : String :=
  String.mk [alphabetAt (f 0), alphabetAt (f 1), alphabetAt (f 2), alphabetAt (f 3),
    alphabetAt (f 4)]

/-- A request for the root path. -/
def rootRequest : Request :=
  { method := "GET",
    url := { origin := "https://notes.example", pathname := "/", searchParams := [] },
    headers := [], text := "", formText := none }

/-- The random source whose every value is `0`. -/
def zeroRandom : Nat → Unit01 :=
  fun _ => { sig := 0, shift := 0, sig_lt := by decide, shift_le := by decide,
             lt_one := by decide }

/-- The index `Math.floor(r * chars.length)` of a draw `r`, as an index into
the 27 characters of `chars`. -/
def drawIndex (r : Unit01) : Fin 27 :=
  Fin.ofNat (roundSig53 (r.sig * 27) / 2 ^ r.shift)

/-- A draw whose index is `i`: the least multiple of `1 / 1024` that is at
least `i / 27`. -/
def drawOf (i : Fin 27) : Unit01 :=
  { sig := (i.val * 1024 + 26) / 27,
    shift := 10,
    sig_lt := by have := i.isLt; omega,
    shift_le := by decide,
    lt_one := by have := i.isLt; omega }

/-- The draw `1334399889591258 / 2 ^ 53`, whose exact product with 27 is
`4 - 2 ^ (-52)`, half way between two doubles. -/
def tieDraw : Unit01 :=
  { sig := 1334399889591258, shift := 53, sig_lt := by decide, shift_le := by decide,
    lt_one := by decide }

/-- An identifier the handler's validation accepts: the negation of the test
that answers 400. -/
def PassesValidation (noteId : String) : Prop :=
  testIdPattern noteId = true ∧ jsLength noteId ≤ 64

/-- The key under which the handler stores the note `noteId`. -/
def kvKey (noteId : String) : String :=
  "note:" ++ noteId

/-- A request that saves the text `hello\nworld` as the note `abc12`. -/
def savePost : Request :=
  { method := "POST",
    url := { origin := "https://notes.example", pathname := "/abc12", searchParams := [] },
    headers := [("content-type", "text/plain")], text := "hello\nworld", formText := none }

/-- The request the page's Delete button sends for the note `abc12`. -/
def emptyPost : Request :=
  { method := "POST",
    url := { origin := "https://notes.example", pathname := "/abc12", searchParams := [] },
    headers := [("content-type", "application/x-www-form-urlencoded; charset=UTF-8")],
    text := "text=", formText := some "" }

/-- A read of the note `abc12` with the query `?raw`. -/
def rawGet : Request :=
  { method := "GET",
    url := { origin := "https://notes.example", pathname := "/abc12",
             searchParams := [("raw", "")] },
    headers := [], text := "", formText := none }

/-- A read of the note `abc12` from a browser. -/
def htmlGet : Request :=
  { method := "GET",
    url := { origin := "https://notes.example", pathname := "/abc12", searchParams := [] },
    headers := [("user-agent", "Mozilla/5.0")], text := "", formText := none }

/-- A read of the note `abc12` from curl, without a `raw` parameter. -/
def curlGet : Request :=
  { method := "GET",
    url := { origin := "https://notes.example", pathname := "/abc12", searchParams := [] },
    headers := [("user-agent", "curl/7.64.1")], text := "", formText := none }

/-- A request whose first path segment is `abc def`. -/
def spaceRequest : Request :=
  { method := "GET",
    url := { origin := "https://notes.example", pathname := "/abc def", searchParams := [] },
    headers := [], text := "", formText := none }

/-- A request for `/abc def` as a URL parser hands it over: the blank is
percent-encoded in `url.pathname`. -/
def encodedSpaceRequest : Request :=
  { method := "GET",
    url := { origin := "https://notes.example", pathname := "/abc%20def", searchParams := [] },
    headers := [], text := "", formText := none }

/-- A store that holds the note `abc12`. -/
def sampleStore : KV :=
  KV.put KV.empty "note:abc12" "old text"

/-! ## Lemmas on strings -/

theorem jsLength_chars : jsLength chars = 27 := by decide

theorem utf16Size_pos (c : Char) : 0 < utf16Size c := by
  unfold utf16Size
  split <;> decide

theorem jsLength_eq_zero_iff (s : String) : jsLength s = 0 ↔ s = "" := by
  constructor
  · intro h
    cases s with
    | mk l =>
      cases l with
      | nil => rfl
      | cons c cs =>
        have hc := utf16Size_pos c
        simp [jsLength] at h
        omega
  · rintro rfl
    rfl

theorem escapeHtml_eq_mk (text : String) : escapeHtml text = String.mk (escapeChars text.data) :=
  rfl

theorem escapeChars_append (a b : List Char) :
    escapeChars (a ++ b) = escapeChars a ++ escapeChars b := by
  simp [escapeChars, List.flatMap_append]

theorem escapeChars_singleton (c : Char) : escapeChars [c] = (escapeChar c).data := by
  by_cases h1 : c = '&'
  · subst h1; decide
  by_cases h2 : c = '<'
  · subst h2; decide
  by_cases h3 : c = '>'
  · subst h3; decide
  by_cases h4 : c = '"'
  · subst h4; decide
  by_cases h5 : c = '\''
  · subst h5; decide
  simp [escapeChars, escapeChar, h1, h2, h3, h4, h5, String.singleton]

theorem escapeChars_eq (l : List Char) :
    escapeChars l = l.flatMap (fun c => (escapeChar c).data) := by
  induction l with
  | nil => rfl
  | cons c cs ih =>
    have h : c :: cs = [c] ++ cs := rfl
    rw [h, escapeChars_append, escapeChars_singleton, ih]
    simp

theorem escapeChar_clean (c x : Char) (hx : x ∈ (escapeChar c).data) :
    x ≠ '<' ∧ x ≠ '>' ∧ x ≠ '"' ∧ x ≠ '\'' := by
  unfold escapeChar at hx
  split at hx
  · revert x; decide
  split at hx
  · revert x; decide
  split at hx
  · revert x; decide
  split at hx
  · revert x; decide
  split at hx
  · revert x; decide
  · simp [String.singleton] at hx
    subst hx
    simp_all

/-! ## Lemmas on the identifier generator -/

theorem bitLengthAux_le (fuel n m : Nat) (h : n < 2 ^ m) : bitLengthAux fuel n ≤ m := by
  induction fuel generalizing n m with
  | zero => simp [bitLengthAux]
  | succ fuel ih =>
    unfold bitLengthAux
    split
    · omega
    · rename_i hn
      cases m with
      | zero => simp at h; exact absurd h hn
      | succ m =>
        have h2 : n / 2 < 2 ^ m := by
          rw [Nat.div_lt_iff_lt_mul (by norm_num)]
          rw [pow_succ] at h
          exact h
        have := ih (n / 2) m h2
        omega

theorem lt_of_bitLengthAux_le (fuel n m : Nat) (hf : n ≤ fuel) (h : bitLengthAux fuel n ≤ m) :
    n < 2 ^ m := by
  induction fuel generalizing n m with
  | zero =>
    have h0 : n = 0 := by omega
    subst h0
    exact Nat.two_pow_pos m
  | succ fuel ih =>
    unfold bitLengthAux at h
    split at h
    · rename_i hn
      subst hn
      exact Nat.two_pow_pos m
    · rename_i hn
      cases m with
      | zero => omega
      | succ m =>
        have h2 : n / 2 < 2 ^ m := ih (n / 2) m (by omega) (by omega)
        rw [pow_succ]
        omega

/-- The halving count is the binary length: the fuel `n` is enough. -/
theorem bitLength_eq_size (n : Nat) : bitLength n = Nat.size n := by
  apply le_antisymm
  · exact bitLengthAux_le n n _ (Nat.lt_size_self n)
  · rw [Nat.size_le]
    exact lt_of_bitLengthAux_le n n _ le_rfl le_rfl

/-- A product that fits in 53 bits is a double: nothing is rounded. -/
theorem roundSig53_of_lt (n : Nat) (h : n < 2 ^ 53) : roundSig53 n = n := by
  have hb : bitLength n - 53 = 0 := by
    have := bitLengthAux_le n n 53 h
    unfold bitLength
    omega
  simp [roundSig53, hb, Nat.mod_one]

/-- Rounding moves a number below `2 ^ 58` up by at most half of `2 ^ 5`. -/
theorem roundSig53_le (n : Nat) (h : n < 2 ^ 58) : roundSig53 n ≤ n + 16 := by
  have hb : bitLength n - 53 ≤ 5 := by
    have := bitLengthAux_le n n 58 h
    unfold bitLength
    omega
  have hp : 2 ^ (bitLength n - 53) ≤ 2 ^ 5 := Nat.pow_le_pow_right (by norm_num) hb
  have hdm := Nat.div_add_mod n (2 ^ (bitLength n - 53))
  simp only [roundSig53]
  split
  · rename_i hup
    rw [Nat.add_mul, Nat.one_mul, Nat.mul_comm]
    rcases hup with hup | ⟨hup, _⟩ <;> omega
  · rw [Nat.mul_comm]
    omega

theorem floor_draw (r : Unit01) : roundSig53 (r.sig * 27) / 2 ^ r.shift < 27 := by
  have h1 := r.sig_lt
  have h2 := r.lt_one
  have h3 : r.sig * 27 < 2 ^ 58 := by
    have : (2 : Nat) ^ 58 = 2 ^ 53 * 32 := by norm_num
    omega
  have h4 := roundSig53_le (r.sig * 27) h3
  rw [Nat.div_lt_iff_lt_mul (Nat.two_pow_pos _)]
  omega

theorem floor_eq_drawIndex (r : Unit01) :
    floorMul r (jsLength chars) = ((drawIndex r).val : Int) := by
  have h := floor_draw r
  rw [jsLength_chars]
  simp only [floorMul, drawIndex, Fin.ofNat, Nat.mod_eq_of_lt h]

theorem charAt_chars (i : Fin 27) : charAt chars (i.val : Int) = String.singleton (alphabetAt i) := by
  revert i
  decide

theorem generateId_eq (random : Nat → Unit01) :
    generateId random = idOf (fun i => drawIndex (random i.val)) := by
  have h : generateId random =
      generateIdStep random (generateIdStep random (generateIdStep random
        (generateIdStep random (generateIdStep random "" 0) 1) 2) 3) 4 := rfl
  rw [h]
  simp only [generateIdStep, floor_eq_drawIndex, charAt_chars]
  rfl

theorem alphabetAt_ok (i : Fin 27) :
    inClass29az (alphabetAt i) = true ∧ alphabetAt i ∉ ambiguous := by
  revert i
  decide

theorem alphabetAt_injective : Function.Injective alphabetAt := by
  intro i j
  revert i j
  decide

theorem idOf_injective : Function.Injective idOf := by
  intro f g h
  have h := congrArg String.data h
  simp only [idOf, List.cons.injEq, and_true] at h
  obtain ⟨h0, h1, h2, h3, h4⟩ := h
  funext i
  fin_cases i
  · exact alphabetAt_injective h0
  · exact alphabetAt_injective h1
  · exact alphabetAt_injective h2
  · exact alphabetAt_injective h3
  · exact alphabetAt_injective h4

theorem drawIndex_drawOf (i : Fin 27) : drawIndex (drawOf i) = i := by
  apply Fin.ext
  have hi := i.isLt
  have hlt : (drawOf i).sig * 27 < 2 ^ 53 := by
    simp only [drawOf]
    omega
  have key : ∀ j : Fin 27, ((j.val * 1024 + 26) / 27 * 27 / 2 ^ 10) % 27 = j.val := by
    decide
  simp only [drawIndex, Fin.ofNat, roundSig53_of_lt _ hlt]
  exact key i

/-- At the draw `1334399889591258 / 2 ^ 53` the rounded product is `4.0`, one
more than the floor of the exact product: every character is `chars[4]`. -/
theorem generateId_tieDraw : generateId (fun _ => tieDraw) = "77777" := by
  decide

theorem range_generateId : Set.range generateId = Set.range idOf := by
  ext s
  constructor
  · rintro ⟨random, rfl⟩
    exact ⟨_, (generateId_eq random).symm⟩
  · rintro ⟨f, rfl⟩
    refine ⟨fun n => if h : n < 5 then drawOf (f ⟨n, h⟩) else zeroRandom n, ?_⟩
    rw [generateId_eq]
    congr 1
    funext i
    have hi := i.isLt
    simp [hi, drawIndex_drawOf]

/-! ## Lemmas on paths and identifiers -/

theorem splitChars_of_not_mem (sep : Char) (l : List Char) (h : sep ∉ l) :
    splitChars sep l = [l] := by
  induction l with
  | nil => rfl
  | cons c cs ih =>
    have hc : c ≠ sep := fun e => h (by simp [e])
    have hcs : sep ∉ cs := fun e => h (List.mem_cons_of_mem _ e)
    simp [splitChars, hc, ih hcs]

theorem pathParts_slash (noteId : String) (hne : noteId.data ≠ [])
    (hs : '/' ∉ noteId.data) : pathParts ("/" ++ noteId) = [noteId] := by
  have hd : ("/" ++ noteId).data = '/' :: noteId.data := rfl
  simp [pathParts, split, hd, splitChars, splitChars_of_not_mem _ _ hs, List.filter, hne]

theorem pathParts_head_ne (pathname noteId : String)
    (h : (pathParts pathname).head? = some noteId) : noteId.data ≠ [] := by
  have hm : noteId ∈ pathParts pathname := List.mem_of_mem_head? h
  have := (List.mem_filter.mp hm).2
  simpa using this

theorem idChar_ascii (c : Char) (h : idChar c = true) : utf16Size c = 1 ∧ c ≠ '/' := by
  constructor
  · have hz : c ≤ 'z' := by
      simp only [idChar, Bool.or_eq_true, Bool.and_eq_true, decide_eq_true_eq, beq_iff_eq] at h
      rcases h with (((h | h) | h) | h) | h
      · exact h.2
      · exact le_trans h.2 (by decide)
      · exact le_trans h.2 (by decide)
      · subst h; decide
      · subst h; decide
    have hz2 : c.toNat ≤ 122 := hz
    simp only [utf16Size]
    rw [if_pos (by omega)]
  · rintro rfl
    revert h
    decide

theorem jsLength_of_idChars (l : List Char) (h : ∀ c ∈ l, idChar c = true) :
    jsLength (String.mk l) = l.length := by
  induction l with
  | nil => rfl
  | cons c cs ih =>
    have h1 := (idChar_ascii c (h c (by simp))).1
    have h2 := ih (fun x hx => h x (List.mem_cons_of_mem _ hx))
    simp only [jsLength, List.map_cons, List.sum_cons, List.length_cons] at h2 ⊢
    omega

theorem passes_pathParts (noteId : String) (h : PassesValidation noteId) :
    pathParts ("/" ++ noteId) = [noteId] := by
  obtain ⟨h1, _⟩ := h
  simp only [testIdPattern, Bool.and_eq_true, Bool.not_eq_true', List.all_eq_true] at h1
  refine pathParts_slash noteId ?_ ?_
  · intro e
    simp [e] at h1
  · intro hm
    exact (idChar_ascii _ (h1.2 _ hm)).2 rfl

theorem kvKey_injective : Function.Injective kvKey := by
  intro a b h
  have h2 := congrArg String.data h
  have ha : (kvKey a).data = "note:".data ++ a.data := rfl
  have hb : (kvKey b).data = "note:".data ++ b.data := rfl
  rw [ha, hb] at h2
  exact String.ext (List.append_cancel_left h2)

/-! ## The branches of the handler -/

theorem fetch_none (request : Request) (NOTES : KV) (random : Nat → Unit01)
    (h : (pathParts request.url.pathname).head? = none) :
    fetch request NOTES random =
      (Response.redirect (request.url.origin ++ "/" ++ generateId random) 302, NOTES) := by
  simp [fetch, h]

theorem fetch_invalid (request : Request) (NOTES : KV) (random : Nat → Unit01) (noteId : String)
    (h : (pathParts request.url.pathname).head? = some noteId) (hv : ¬ PassesValidation noteId) :
    fetch request NOTES random = (Response.new "Invalid note ID" 400 [], NOTES) := by
  have hc : (!testIdPattern noteId || decide (jsLength noteId > 64)) = true := by
    by_cases h1 : testIdPattern noteId = true
    · have : ¬ jsLength noteId ≤ 64 := fun h2 => hv ⟨h1, h2⟩
      simp [h1]
      omega
    · simp [h1]
  simp only [fetch, h]
  rw [if_pos hc]

theorem fetch_post (request : Request) (NOTES : KV) (random : Nat → Unit01) (noteId : String)
    (h : (pathParts request.url.pathname).head? = some noteId) (hv : PassesValidation noteId)
    (hm : request.method = "POST") :
    fetch request NOTES random =
      (Response.new "OK" 200 [("Cache-Control", "no-store")],
        if jsLength (postText request) = 0 then NOTES.delete (kvKey noteId)
        else NOTES.put (kvKey noteId) (postText request)) := by
  have hc : ¬ ((!testIdPattern noteId || decide (jsLength noteId > 64)) = true) := by
    have := hv.2
    simp [hv.1]
    omega
  simp only [fetch, h]
  rw [if_neg hc, if_pos hm]
  rfl

theorem fetch_get (request : Request) (NOTES : KV) (random : Nat → Unit01) (noteId : String)
    (h : (pathParts request.url.pathname).head? = some noteId) (hv : PassesValidation noteId)
    (hm : request.method ≠ "POST") :
    fetch request NOTES random =
      (if isRaw request = true then
        match NOTES (kvKey noteId) with
        | none => Response.new "Not Found" 404 [("Content-Type", "text/plain")]
        | some content =>
          Response.new content 200 [("Content-Type", "text/plain"), ("Cache-Control", "no-store")]
      else
        Response.new (renderHTML noteId ((NOTES (kvKey noteId)).getD "")) 200
          [("Content-Type", "text/html; charset=utf-8"), ("Cache-Control", "no-store")],
       NOTES) := by
  have hc : ¬ ((!testIdPattern noteId || decide (jsLength noteId > 64)) = true) := by
    have := hv.2
    simp [hv.1]
    omega
  simp only [fetch, h]
  rw [if_neg hc, if_neg hm]
  simp only [KV.get, kvKey]
  split
  · split <;> rfl
  · rfl

theorem passes_iff (noteId : String) (hne : noteId.data ≠ []) :
    PassesValidation noteId ↔ (∀ c ∈ noteId.data, idChar c = true) ∧ noteId.length ≤ 64 := by
  have hemp : noteId.data.isEmpty = false := by
    cases hd : noteId.data with
    | nil => exact absurd hd hne
    | cons c cs => rfl
  constructor
  · rintro ⟨h1, h2⟩
    simp only [testIdPattern, hemp, Bool.not_false, Bool.true_and, List.all_eq_true] at h1
    refine ⟨h1, ?_⟩
    have := jsLength_of_idChars noteId.data h1
    have hl : noteId.length = noteId.data.length := rfl
    have hs : String.mk noteId.data = noteId := rfl
    rw [hs] at this
    omega
  · rintro ⟨h1, h2⟩
    refine ⟨?_, ?_⟩
    · simp only [testIdPattern, hemp, Bool.not_false, Bool.true_and, List.all_eq_true]
      exact h1
    · have := jsLength_of_idChars noteId.data h1
      have hl : noteId.length = noteId.data.length := rfl
      have hs : String.mk noteId.data = noteId := rfl
      rw [hs] at this
      omega

theorem status_400_iff (request : Request) (NOTES : KV) (random : Nat → Unit01)
    (noteId : String) (h : (pathParts request.url.pathname).head? = some noteId) :
    (fetch request NOTES random).1.status = 400 ↔ ¬ PassesValidation noteId := by
  by_cases hv : PassesValidation noteId
  · by_cases hm : request.method = "POST"
    · rw [fetch_post request NOTES random noteId h hv hm]
      simp [Response.new, hv]
    · rw [fetch_get request NOTES random noteId h hv hm]
      simp only [hv, not_true_eq_false, iff_false]
      split
      · split <;> simp [Response.new]
      · simp [Response.new]
  · rw [fetch_invalid request NOTES random noteId h hv]
    simp [Response.new, hv]

theorem fetch_store_eq (request : Request) (NOTES : KV) (random : Nat → Unit01) :
    (fetch request NOTES random).2 = NOTES ∨
    ∃ noteId, (pathParts request.url.pathname).head? = some noteId ∧ PassesValidation noteId ∧
      request.method = "POST" ∧
      (fetch request NOTES random).2 =
        if jsLength (postText request) = 0 then NOTES.delete (kvKey noteId)
        else NOTES.put (kvKey noteId) (postText request) := by
  cases h : (pathParts request.url.pathname).head? with
  | none => left; rw [fetch_none request NOTES random h]
  | some noteId =>
    by_cases hv : PassesValidation noteId
    · by_cases hm : request.method = "POST"
      · right
        exact ⟨noteId, rfl, hv, hm, by rw [fetch_post request NOTES random noteId h hv hm]⟩
      · left; rw [fetch_get request NOTES random noteId h hv hm]
    · left; rw [fetch_invalid request NOTES random noteId h hv]

theorem head_of_passes (request : Request) (noteId : String) (hv : PassesValidation noteId)
    (hp : request.url.pathname = "/" ++ noteId) :
    (pathParts request.url.pathname).head? = some noteId := by
  rw [hp, passes_pathParts noteId hv]
  rfl

/-! ## Properties of the handler -/

/-- C1: save/read round trip. For an identifier that passes validation, a POST
to `/<id>` whose resulting text is non-empty, followed by a raw-mode GET of
`/<id>` on the resulting store, answers status 200 with `Content-Type:
text/plain` and a body that is exactly the posted text. -/
theorem C1_save_read_roundtrip (noteId : String) (post get : Request) (NOTES : KV)
    (random random2 : Nat → Unit01) (hv : PassesValidation noteId)
    (hp : post.url.pathname = "/" ++ noteId) (hpm : post.method = "POST")
    (ht : postText post ≠ "")
    (hg : get.url.pathname = "/" ++ noteId) (hgm : get.method = "GET")
    (hraw : isRaw get = true) :
    (fetch get (fetch post NOTES random).2 random2).1.status = 200 ∧
    (fetch get (fetch post NOTES random).2 random2).1.header "Content-Type" = some "text/plain" ∧
    (fetch get (fetch post NOTES random).2 random2).1.body = postText post := by
  have h1 := head_of_passes post noteId hv hp
  have h2 := head_of_passes get noteId hv hg
  have hgm2 : get.method ≠ "POST" := by rw [hgm]; decide
  have hz : ¬ jsLength (postText post) = 0 := fun e => ht ((jsLength_eq_zero_iff _).mp e)
  rw [fetch_post post NOTES random noteId h1 hv hpm, fetch_get get _ random2 noteId h2 hv hgm2]
  simp only [hz, if_false, hraw, if_true, KV.put]
  refine ⟨rfl, rfl, rfl⟩

/-- Witness of C1 on the text `hello\nworld`: the newline comes back, nothing is trimmed. -/
theorem C1_save_read_roundtrip_witness :
    (fetch rawGet (fetch savePost sampleStore zeroRandom).2 zeroRandom).1.status = 200 ∧
    (fetch rawGet (fetch savePost sampleStore zeroRandom).2 zeroRandom).1.header "Content-Type"
      = some "text/plain" ∧
    (fetch rawGet (fetch savePost sampleStore zeroRandom).2 zeroRandom).1.body = "hello\nworld" :=
  C1_save_read_roundtrip "abc12" savePost rawGet sampleStore zeroRandom zeroRandom
    ⟨by decide, by decide⟩ rfl rfl (by decide) rfl rfl (by decide)

/-- C2: an empty save deletes. For an identifier that passes validation and any
store, after a POST to `/<id>` whose resulting text has zero length, a raw-mode
GET of `/<id>` answers 404, and a non-raw GET answers the HTML document rendered
with empty content, the same response as on any store that never held the note. -/
theorem C2_empty_save_deletes (noteId : String) (post get : Request) (NOTES : KV)
    (random random2 : Nat → Unit01) (hv : PassesValidation noteId)
    (hp : post.url.pathname = "/" ++ noteId) (hpm : post.method = "POST")
    (ht : jsLength (postText post) = 0)
    (hg : get.url.pathname = "/" ++ noteId) (hgm : get.method = "GET") :
    (isRaw get = true →
      (fetch get (fetch post NOTES random).2 random2).1.status = 404) ∧
    (isRaw get = false →
      (fetch get (fetch post NOTES random).2 random2).1.status = 200 ∧
      (fetch get (fetch post NOTES random).2 random2).1.header "Content-Type"
        = some "text/html; charset=utf-8" ∧
      (fetch get (fetch post NOTES random).2 random2).1.body = renderHTML noteId "" ∧
      ∀ fresh : KV, fresh (kvKey noteId) = none →
        (fetch get (fetch post NOTES random).2 random2).1 = (fetch get fresh random2).1) := by
  have h1 := head_of_passes post noteId hv hp
  have h2 := head_of_passes get noteId hv hg
  have hgm2 : get.method ≠ "POST" := by rw [hgm]; decide
  rw [fetch_post post NOTES random noteId h1 hv hpm, fetch_get get _ random2 noteId h2 hv hgm2]
  simp only [ht, if_true, KV.delete]
  constructor
  · intro hraw
    simp only [hraw, if_true]
    rfl
  · intro hraw
    simp only [hraw, Bool.false_eq_true, if_false]
    refine ⟨rfl, rfl, rfl, ?_⟩
    intro fresh hf
    rw [fetch_get get fresh random2 noteId h2 hv hgm2]
    simp only [hraw, Bool.false_eq_true, if_false, hf]

/-- Witness of C2: the note `abc12` exists, the Delete button's request is
handled, and the raw read answers 404. -/
theorem C2_empty_save_deletes_witness :
    sampleStore (kvKey "abc12") = some "old text" ∧
    (fetch rawGet (fetch emptyPost sampleStore zeroRandom).2 zeroRandom).1.status = 404 :=
  ⟨by decide,
   (C2_empty_save_deletes "abc12" emptyPost rawGet sampleStore zeroRandom zeroRandom
    ⟨by decide, by decide⟩ rfl rfl (by decide) rfl rfl).1 (by decide)⟩

/-- C3: identifier validation is exact. When the path has a first non-empty
segment `noteId`, the handler answers 400, whatever the method, exactly when
`noteId` has a character outside `A-Z`, `a-z`, `0-9`, `_`, `-` or is longer than
64 characters; `abc def` and every 65-character identifier of valid characters
give 400, and every 64-character identifier of valid characters is accepted. -/
theorem C3_validation_exact (request : Request) (NOTES : KV) (random : Nat → Unit01)
    (noteId : String) (h : (pathParts request.url.pathname).head? = some noteId) :
    ((fetch request NOTES random).1.status = 400 ↔
      ((∃ c ∈ noteId.data, idChar c = false) ∨ noteId.length > 64)) ∧
    (noteId = "abc def" → (fetch request NOTES random).1.status = 400) ∧
    ((∀ c ∈ noteId.data, idChar c = true) → noteId.length = 65 →
      (fetch request NOTES random).1.status = 400) ∧
    ((∀ c ∈ noteId.data, idChar c = true) → noteId.length = 64 →
      (fetch request NOTES random).1.status ≠ 400) := by
  have hne := pathParts_head_ne _ _ h
  have key : (fetch request NOTES random).1.status = 400 ↔
      ((∃ c ∈ noteId.data, idChar c = false) ∨ noteId.length > 64) := by
    rw [status_400_iff request NOTES random noteId h, passes_iff noteId hne]
    constructor
    · intro hn
      by_cases hall : ∀ c ∈ noteId.data, idChar c = true
      · right
        by_contra hle
        exact hn ⟨hall, by omega⟩
      · left
        push_neg at hall
        obtain ⟨c, hc, hcf⟩ := hall
        exact ⟨c, hc, by simpa using hcf⟩
    · rintro (⟨c, hc, hcf⟩ | hlen) ⟨hall, hle⟩
      · rw [hall c hc] at hcf
        exact Bool.noConfusion hcf
      · omega
  refine ⟨key, ?_, ?_, ?_⟩
  · rintro rfl
    exact key.mpr (Or.inl ⟨' ', by decide, by decide⟩)
  · intro _ hl
    exact key.mpr (Or.inr (by omega))
  · intro hall hl hs
    rcases key.mp hs with ⟨c, hc, hcf⟩ | hlen
    · rw [hall c hc] at hcf
      exact Bool.noConfusion hcf
    · omega

/-- Witness of C3: the segment `abc def` is answered with 400. -/
theorem C3_validation_exact_witness :
    (fetch spaceRequest KV.empty zeroRandom).1.status = 400 :=
  (C3_validation_exact spaceRequest KV.empty zeroRandom "abc def" (by decide)).2.1 rfl

/-- C4: raw-mode detection. For a GET request whose identifier passes validation,
the response is the plain-text one (200 with the stored content when the note is
present, 404 when it is absent, `Content-Type: text/plain`) exactly when the
query has a `raw` parameter or the User-Agent starts with `curl` or with `Wget`;
otherwise it is the HTML document. A User-Agent `curl/7.64.1` yields text/plain. -/
theorem C4_raw_mode_detection (request : Request) (NOTES : KV) (random : Nat → Unit01)
    (noteId : String) (h : (pathParts request.url.pathname).head? = some noteId)
    (hv : PassesValidation noteId) (hm : request.method = "GET") :
    ((request.url.hasParam "raw" = true ∨
        startsWith ((request.header "user-agent").getD "") "curl" = true ∨
        startsWith ((request.header "user-agent").getD "") "Wget" = true) →
      (fetch request NOTES random).1.header "Content-Type" = some "text/plain" ∧
      (∀ content, NOTES (kvKey noteId) = some content →
        (fetch request NOTES random).1.status = 200 ∧
        (fetch request NOTES random).1.body = content) ∧
      (NOTES (kvKey noteId) = none → (fetch request NOTES random).1.status = 404)) ∧
    (¬ (request.url.hasParam "raw" = true ∨
        startsWith ((request.header "user-agent").getD "") "curl" = true ∨
        startsWith ((request.header "user-agent").getD "") "Wget" = true) →
      (fetch request NOTES random).1.status = 200 ∧
      (fetch request NOTES random).1.header "Content-Type" = some "text/html; charset=utf-8" ∧
      (fetch request NOTES random).1.body =
        renderHTML noteId ((NOTES (kvKey noteId)).getD "")) ∧
    ((fetch request NOTES random).1.header "Content-Type" = some "text/plain" ↔
      (request.url.hasParam "raw" = true ∨
        startsWith ((request.header "user-agent").getD "") "curl" = true ∨
        startsWith ((request.header "user-agent").getD "") "Wget" = true)) ∧
    (request.header "user-agent" = some "curl/7.64.1" →
      (fetch request NOTES random).1.header "Content-Type" = some "text/plain") := by
  have hm2 : request.method ≠ "POST" := by rw [hm]; decide
  have hraw : isRaw request = true ↔
      (request.url.hasParam "raw" = true ∨
        startsWith ((request.header "user-agent").getD "") "curl" = true ∨
        startsWith ((request.header "user-agent").getD "") "Wget" = true) := by
    simp only [isRaw, Bool.or_eq_true, or_assoc]
  rw [← hraw, fetch_get request NOTES random noteId h hv hm2]
  have hplain : isRaw request = true →
      (if isRaw request = true then
        match NOTES (kvKey noteId) with
        | none => Response.new "Not Found" 404 [("Content-Type", "text/plain")]
        | some content =>
          Response.new content 200 [("Content-Type", "text/plain"), ("Cache-Control", "no-store")]
      else
        Response.new (renderHTML noteId ((NOTES (kvKey noteId)).getD "")) 200
          [("Content-Type", "text/html; charset=utf-8"), ("Cache-Control", "no-store")]).header
        "Content-Type" = some "text/plain" := by
    intro hr
    rw [if_pos hr]
    split <;> rfl
  refine ⟨?_, ?_, ?_, ?_⟩
  · intro hr
    refine ⟨hplain hr, ?_, ?_⟩
    · intro content hc
      simp only [hr, if_true, hc]
      exact ⟨rfl, rfl⟩
    · intro hc
      simp only [hr, if_true, hc]
      rfl
  · intro hr
    simp only [hr, if_false]
    exact ⟨rfl, rfl, rfl⟩
  · constructor
    · intro hct
      by_contra hr
      rw [if_neg hr] at hct
      have hhtml : (Response.new (renderHTML noteId ((NOTES (kvKey noteId)).getD "")) 200
          [("Content-Type", "text/html; charset=utf-8"), ("Cache-Control", "no-store")]).header
          "Content-Type" = some "text/html; charset=utf-8" := rfl
      rw [hhtml] at hct
      exact absurd hct (by decide)
    · exact hplain
  · intro hua
    apply hplain
    simp only [isRaw, hua, Option.getD_some, Bool.or_eq_true]
    left; right
    decide

/-- Witness of C4: curl without a `raw` parameter reads the stored note as text/plain. -/
theorem C4_raw_mode_detection_witness :
    (fetch curlGet sampleStore zeroRandom).1.header "Content-Type" = some "text/plain" :=
  (C4_raw_mode_detection curlGet sampleStore zeroRandom "abc12" (by decide)
    ⟨by decide, by decide⟩ rfl).2.2.2 rfl

/-- C5, as the code has it: every response with status 200 (the POST `OK`, the raw
200 and the HTML page) carries `Cache-Control: no-store`. -/
theorem C5_ok_responses_no_store (request : Request) (NOTES : KV) (random : Nat → Unit01)
    (h : (fetch request NOTES random).1.status = 200) :
    (fetch request NOTES random).1.header "Cache-Control" = some "no-store" := by
  cases hh : (pathParts request.url.pathname).head? with
  | none =>
    rw [fetch_none request NOTES random hh] at h
    have h302 : (302 : Nat) = 200 := h
    exact absurd h302 (by decide)
  | some noteId =>
    by_cases hv : PassesValidation noteId
    · by_cases hm : request.method = "POST"
      · rw [fetch_post request NOTES random noteId hh hv hm]
        rfl
      · rw [fetch_get request NOTES random noteId hh hv hm] at h ⊢
        by_cases hr : isRaw request = true
        · simp only [hr, if_true] at h ⊢
          cases hc : NOTES (kvKey noteId) with
          | none =>
            rw [hc] at h
            have h404 : (404 : Nat) = 200 := h
            exact absurd h404 (by decide)
          | some content => rfl
        · simp only [hr, if_false]
          rfl
    · rw [fetch_invalid request NOTES random noteId hh hv] at h
      have h400 : (400 : Nat) = 200 := h
      exact absurd h400 (by decide)

/-- Witness of C5 as amended: the response to a save. -/
theorem C5_ok_responses_no_store_witness :
    (fetch savePost sampleStore zeroRandom).1.header "Cache-Control" = some "no-store" :=
  C5_ok_responses_no_store savePost sampleStore zeroRandom (by decide)

/-- C5 as stated fails: the 302 redirect, the 400 error and the raw 404 carry no
`Cache-Control` header. -/
theorem C5_no_store_counterexample :
    ((fetch rootRequest KV.empty zeroRandom).1.status = 302 ∧
      (fetch rootRequest KV.empty zeroRandom).1.header "Cache-Control" = none) ∧
    ((fetch encodedSpaceRequest KV.empty zeroRandom).1.status = 400 ∧
      (fetch encodedSpaceRequest KV.empty zeroRandom).1.header "Cache-Control" = none) ∧
    ((fetch rawGet KV.empty zeroRandom).1.status = 404 ∧
      (fetch rawGet KV.empty zeroRandom).1.header "Cache-Control" = none) := by
  refine ⟨?_, ?_, ?_⟩
  · rw [fetch_none rootRequest KV.empty zeroRandom (by decide)]
    exact ⟨rfl, rfl⟩
  · decide
  · decide

/-- C6: redirect to a generated identifier. For a request whose path has no
non-empty segment and for every outcome of the random source, the handler answers
302 with a `Location` equal to the request origin, `/` and exactly 5 characters,
each in `[2-9a-z]` and none of `0`, `1`, `6`, `8`, `o`, `i`, `l`, `u`, `v`. -/
theorem C6_redirect_generated_id (request : Request) (NOTES : KV) (random : Nat → Unit01)
    (h : pathParts request.url.pathname = []) :
    (fetch request NOTES random).1.status = 302 ∧
    ∃ cs : List Char, cs.length = 5 ∧
      (fetch request NOTES random).1.header "Location"
        = some (request.url.origin ++ "/" ++ String.mk cs) ∧
      ∀ c ∈ cs, inClass29az c = true ∧ c ∉ ambiguous := by
  have hh : (pathParts request.url.pathname).head? = none := by rw [h]; rfl
  rw [fetch_none request NOTES random hh, generateId_eq]
  refine ⟨rfl, [alphabetAt (drawIndex (random 0)), alphabetAt (drawIndex (random 1)),
    alphabetAt (drawIndex (random 2)), alphabetAt (drawIndex (random 3)),
    alphabetAt (drawIndex (random 4))], rfl, rfl, ?_⟩
  intro c hc
  simp only [List.mem_cons, List.mem_singleton, List.not_mem_nil, or_false] at hc
  rcases hc with rfl | rfl | rfl | rfl | rfl <;> exact alphabetAt_ok _

/-- Witness of C6: a GET of `/`. -/
theorem C6_redirect_generated_id_witness :
    pathParts rootRequest.url.pathname = [] ∧
    (fetch rootRequest KV.empty zeroRandom).1.status = 302 :=
  ⟨by decide, (C6_redirect_generated_id rootRequest KV.empty zeroRandom (by decide)).1⟩

theorem noEmpty_fetch (request : Request) (NOTES : KV) (random : Nat → Unit01)
    (h : NoEmpty NOTES) : NoEmpty (fetch request NOTES random).2 := by
  rcases fetch_store_eq request NOTES random with he | ⟨noteId, _, _, _, he⟩
  · rw [he]; exact h
  · rw [he]
    intro k
    by_cases hz : jsLength (postText request) = 0
    · simp only [hz, if_true, KV.delete]
      by_cases hk : k = kvKey noteId
      · simp [hk]
      · simp only [hk, if_false]
        exact h k
    · simp only [hz, if_false, KV.put]
      by_cases hk : k = kvKey noteId
      · simp only [hk, if_true]
        intro e
        exact hz ((jsLength_eq_zero_iff _).mpr (Option.some.inj e))
      · simp only [hk, if_false]
        exact h k

theorem noEmpty_of_reachable (NOTES : KV) (h : Reachable NOTES) : NoEmpty NOTES := by
  induction h with
  | empty => intro k e; exact Option.noConfusion e
  | step kv request random _ ih => exact noEmpty_fetch request kv random ih

/-- C7: no empty entries. If no key of the store holds the empty string, then
after the handler has processed any request no key holds the empty string; hence
in every store reachable from the empty store a note is present exactly when its
content (the empty string for an absent note) is non-empty. -/
theorem C7_no_empty_entries :
    (∀ (NOTES : KV) (request : Request) (random : Nat → Unit01),
      NoEmpty NOTES → NoEmpty (fetch request NOTES random).2) ∧
    (∀ NOTES : KV, Reachable NOTES →
      ∀ k, (NOTES k).isSome = true ↔ (NOTES k).getD "" ≠ "") := by
  refine ⟨fun NOTES request random h => noEmpty_fetch request NOTES random h, ?_⟩
  intro NOTES hr k
  have hn := noEmpty_of_reachable NOTES hr k
  cases hk : NOTES k with
  | none => simp
  | some v =>
    rw [hk] at hn
    simp only [Option.isSome_some, Option.getD_some, true_iff]
    intro e
    exact hn (by rw [e])

/-- Witness of C7: the store after a save into the empty store, and after the
deletion that follows it. -/
theorem C7_no_empty_entries_witness :
    NoEmpty (fetch savePost KV.empty zeroRandom).2 ∧
    NoEmpty (fetch emptyPost (fetch savePost KV.empty zeroRandom).2 zeroRandom).2 :=
  ⟨C7_no_empty_entries.1 KV.empty savePost zeroRandom (fun _ e => Option.noConfusion e),
   C7_no_empty_entries.1 _ emptyPost zeroRandom
    (C7_no_empty_entries.1 KV.empty savePost zeroRandom (fun _ e => Option.noConfusion e))⟩

/-- C8: `escapeHtml` is the character-by-character substitution. The five
successive replacements equal the concatenation of one entity per character, so
an ampersand introduced by an entity is not escaped again, and the result has
none of `<`, `>`, `"`, `'`; `renderHTML` is the template with `escapeHtml noteId`
and `escapeHtml content` in its two holes. -/
theorem C8_escapeHtml_charwise :
    (∀ text : String, escapeHtml text = escapeHtmlSpec text) ∧
    (∀ (text : String) (c : Char), c ∈ (escapeHtml text).data →
      c ≠ '<' ∧ c ≠ '>' ∧ c ≠ '"' ∧ c ≠ '\'') ∧
    escapeHtml "<b>&\"'" = "&lt;b&gt;&amp;&quot;&#039;" ∧
    (∀ noteId content : String,
      renderHTML noteId content =
        htmlHead ++ escapeHtml noteId ++ htmlMiddle ++ escapeHtml content ++ htmlTail) := by
  have hspec : ∀ text : String, escapeHtml text = escapeHtmlSpec text := by
    intro text
    rw [escapeHtml_eq_mk, escapeChars_eq]
    rfl
  refine ⟨hspec, ?_, by decide, fun _ _ => rfl⟩
  intro text c hc
  rw [hspec] at hc
  simp only [escapeHtmlSpec, List.mem_flatMap] at hc
  obtain ⟨x, _, hx⟩ := hc
  exact escapeChar_clean x c hx

/-- C9, as the code has it: the alphabet of `generateId` has exactly 27 distinct
characters, and `generateId` has exactly `27 ^ 5` possible values. -/
theorem C9_alphabet_size :
    chars.data.length = 27 ∧ jsLength chars = 27 ∧ chars.data.Nodup ∧
    (Set.range generateId).ncard = 27 ^ 5 := by
  refine ⟨rfl, jsLength_chars, by decide, ?_⟩
  rw [range_generateId, ← Set.image_univ, Set.ncard_image_of_injective _ idOf_injective,
    Set.ncard_univ, Nat.card_fun]
  simp

/-- C9 as stated fails: the alphabet has 27 characters, not 28, and the number
of possible identifiers is not `28 ^ 5`. -/
theorem C9_alphabet_size_counterexample :
    chars.data.length ≠ 28 ∧ jsLength chars ≠ 28 ∧ (Set.range generateId).ncard ≠ 28 ^ 5 := by
  refine ⟨by decide, by decide, ?_⟩
  rw [range_generateId, ← Set.image_univ, Set.ncard_image_of_injective _ idOf_injective,
    Set.ncard_univ, Nat.card_fun]
  simp

/-- C10: frame of a request on the store. The store after handling differs from
the store before at most at the key `note:` + noteId, and only when the method is
POST and noteId passes validation; a request answered with 302 or 400, or whose
method is not POST, leaves the store unchanged; and a request that is not a POST
is answered the same before and after any request about a different identifier. -/
theorem C10_store_frame (request : Request) (NOTES : KV) (random : Nat → Unit01) :
    (∀ k, (fetch request NOTES random).2 k ≠ NOTES k →
      request.method = "POST" ∧
      ∃ noteId, (pathParts request.url.pathname).head? = some noteId ∧
        PassesValidation noteId ∧ k = "note:" ++ noteId) ∧
    (((fetch request NOTES random).1.status = 302 ∨
        (fetch request NOTES random).1.status = 400 ∨ request.method ≠ "POST") →
      (fetch request NOTES random).2 = NOTES) ∧
    (∀ (other : Request) (random2 : Nat → Unit01), other.method ≠ "POST" →
      (pathParts other.url.pathname).head? ≠ (pathParts request.url.pathname).head? →
      (fetch other (fetch request NOTES random).2 random2).1 = (fetch other NOTES random2).1) := by
  have hframe : ∀ k, (fetch request NOTES random).2 k ≠ NOTES k →
      request.method = "POST" ∧
      ∃ noteId, (pathParts request.url.pathname).head? = some noteId ∧
        PassesValidation noteId ∧ k = "note:" ++ noteId := by
    intro k hk
    rcases fetch_store_eq request NOTES random with he | ⟨noteId, hh, hv, hm, he⟩
    · rw [he] at hk
      exact absurd rfl hk
    · refine ⟨hm, noteId, hh, hv, ?_⟩
      by_contra hne
      apply hk
      rw [he]
      have hne2 : ¬ k = kvKey noteId := hne
      split <;> simp [KV.delete, KV.put, hne2]
  refine ⟨hframe, ?_, ?_⟩
  · intro hcase
    rcases fetch_store_eq request NOTES random with he | ⟨noteId, hh, hv, hm, _⟩
    · exact he
    · exfalso
      rcases hcase with h302 | h400 | hnp
      · rw [fetch_post request NOTES random noteId hh hv hm] at h302
        have : (200 : Nat) = 302 := h302
        exact absurd this (by decide)
      · rw [fetch_post request NOTES random noteId hh hv hm] at h400
        have : (200 : Nat) = 400 := h400
        exact absurd this (by decide)
      · exact hnp hm
  · intro other random2 hom hdiff
    cases ho : (pathParts other.url.pathname).head? with
    | none =>
      rw [fetch_none other _ random2 ho, fetch_none other NOTES random2 ho]
    | some b =>
      by_cases hvb : PassesValidation b
      · rw [fetch_get other _ random2 b ho hvb hom, fetch_get other NOTES random2 b ho hvb hom]
        have hsame : (fetch request NOTES random).2 (kvKey b) = NOTES (kvKey b) := by
          by_contra hk
          obtain ⟨_, a, ha, _, hab⟩ := hframe (kvKey b) hk
          have : b = a := kvKey_injective hab
          apply hdiff
          rw [ho, ha, this]
        simp only [hsame]
      · rw [fetch_invalid other _ random2 b ho hvb, fetch_invalid other NOTES random2 b ho hvb]

end Notepad
